import Mathlib

/-!
Shallow embedding of `src/skills/cranelift-debugging/scripts/sigsegv_handler.rs`,
a crash-pause signal handler.  The Rust module keeps one piece of persistent
process state, the atomic boolean `CAUGHT`; the signal handler `handler(sig)`
performs a test-and-set on that flag, aborts on re-entry, and otherwise prints
a diagnostic block to stderr and reads one byte from stdin; `install()` (unix
variant) registers that handler for four fatal signals, and the non-unix
variant only prints a guidance line.

We model a handler invocation as a pure transition on an explicit process
state carrying the flag, the stdin byte stream, the list of lines written to
stderr, an aborted marker, and the process id.
-/

namespace SigsegvHandler

/-- Signal numbers (values of the libc constants on Linux, where the tool is
used; the code matches on the constants, not on literal numbers). -/
def SIGSEGV : Int := 11

/-- Signal number of the bus-error signal. -/
def SIGBUS : Int := 7

/-- Signal number of the floating-point-exception signal. -/
def SIGFPE : Int := 8

/-- Signal number of the illegal-instruction signal. -/
def SIGILL : Int := 4

/-- The `match sig` in `handler` (lines 23-29): resolve a signal number to a
display name, with "UNKNOWN" as the fallback arm. -/
def sigName (sig : Int) : String :=
  if sig = SIGSEGV then "SIGSEGV"
  else if sig = SIGBUS then "SIGBUS"
  else if sig = SIGFPE then "SIGFPE"
  else if sig = SIGILL then "SIGILL"
  else "UNKNOWN"

/-- The horizontal border of the diagnostic box: 58 box-drawing double bars,
as between the corner characters on lines 31, 33, 45 and 47 of the source. -/
def boxBar : String := String.mk (List.replicate 58 '═')

/-- The diagnostic block printed by `handler` (lines 31-47): one list element
per `eprintln!` call, with the interpolated signal name and process id. -/
def diagBlock (sig_name : String) (pid : Nat) : List String :=
  [ "\n╔" ++ boxBar ++ "╗"
  , "║  CAUGHT " ++ sig_name ++ " - Process paused for debugger attachment"
  , "╠" ++ boxBar ++ "╣"
  , "║  PID: " ++ toString pid
  , "║                                                          ║"
  , "║  Attach debugger:                                        ║"
  , "║    lldb -p " ++ toString pid ++ "                                      "
  , "║    gdb -p " ++ toString pid ++ "                                       "
  , "║                                                          ║"
  , "║  Then in debugger:                                       ║"
  , "║    bt          # backtrace                               ║"
  , "║    f 0         # select frame                            ║"
  , "║    di -p       # disassemble at PC                       ║"
  , "║    reg read    # show registers                          ║"
  , "╠" ++ boxBar ++ "╣"
  , "║  Press Enter to continue (will crash)...                 ║"
  , "╚" ++ boxBar ++ "╝" ]

/-- Process state visible to the handler: the persistent atomic flag `CAUGHT`,
the stdin byte stream, the lines printed to stderr so far, whether the process
has called `abort`, and the process id (read-only). -/
structure ProcState where
  caught : Bool
  stdin : List Nat
  stderr : List String
  aborted : Bool
  pid : Nat
deriving DecidableEq, Repr

/-- `std::io::stdin().read(&mut buf)` on a one-byte buffer: returns the byte
read (none on end-of-stream or failure) and the rest of the stream.  Both
outcomes return; the handler discards the first component. -/
def readByte : List Nat → Option Nat × List Nat
  | [] => (none, [])
  | b :: rest => (some b, rest)

/-- The process state at process start: `CAUGHT` is initialized to `false`
(line 15) before any signal can arrive, nothing printed, not aborted. -/
def initState (pid : Nat) (stdin : List Nat) : ProcState :=
  { caught := false, stdin := stdin, stderr := [], aborted := false, pid := pid }

/-- The signal handler `handler(sig)` (lines 17-51).  `CAUGHT.swap(true)` is
the test-and-set: the flag becomes true and the old value decides the branch.
If the flag was already set the process aborts (line 20) with nothing printed
and nothing read; otherwise the diagnostic block is printed and one byte is
read from stdin, its result discarded (lines 49-50), and the handler returns. -/
def handler (sig : Int) (s : ProcState) : ProcState :=
  let old := s.caught
  let s1 : ProcState := { s with caught := true }
  if old then
    { s1 with aborted := true }
  else
    let sig_name := sigName sig
    let s2 : ProcState := { s1 with stderr := s1.stderr ++ diagBlock sig_name s1.pid }
    { s2 with stdin := (readByte s2.stdin).2 }

/-- A sequence of handler invocations.  An aborted process receives no further
signals, so the run stops once `aborted` is set. -/
def runHandlers : List Int → ProcState → ProcState
  | [], s => s
  | sig :: rest, s => if s.aborted then s else runHandlers rest (handler sig s)

namespace Unix

/-- `install()` of the `cfg(unix)` module (lines 55-63): calls
`libc::signal` once for each of the four fatal signals, discarding each
return value, then prints one line with the process id to stderr.  The
`sigRegister` argument is the environment: the value `libc::signal` returns
for each registration (ignored by the code).  The result is the list of
signals registered and the lines printed. -/
def install (sigRegister : Int → Int) (pid : Nat) : List Int × List String :=
  let r1 := sigRegister SIGSEGV
  let r2 := sigRegister SIGBUS
  let r3 := sigRegister SIGFPE
  let r4 := sigRegister SIGILL
  let _ := (r1, r2, r3, r4)
  ([SIGSEGV, SIGBUS, SIGFPE, SIGILL],
   ["[sigsegv_handler] Installed crash handlers for PID " ++ toString pid])

end Unix

namespace NonUnix

/-- `install()` of the `cfg(not(unix))` module (lines 66-71): registers
nothing and prints one guidance line. -/
def install : List Int × List String :=
  ([], ["[sigsegv_handler] Not available on this platform, use cdb/WinDbg instead"])

end NonUnix

/-- A concrete state whose flag is already set (as after a first fault). -/
def caughtState : ProcState :=
  { caught := true, stdin := [10], stderr := [], aborted := false, pid := 7 }

/- ## Helper lemmas -/

/-- Reading a byte leaves the tail of the stream, for an empty (failed read)
and a non-empty (successful read) stream alike. -/
theorem readByte_snd (l : List Nat) : (readByte l).2 = l.tail := by
  cases l <;> rfl

/-- An aborted process receives no further handler invocations. -/
theorem runHandlers_of_aborted (sigs : List Int) (s : ProcState)
    (h : s.aborted = true) : runHandlers sigs s = s := by
  cases sigs with
  | nil => rfl
  | cons sig rest => simp [runHandlers, h]

/-- Characterization of `handler` on a state whose flag is still false. -/
theorem handler_not_caught (sig : Int) (s : ProcState) (h : s.caught = false) :
    handler sig s =
      { s with caught := true
             , stderr := s.stderr ++ diagBlock (sigName sig) s.pid
             , stdin := s.stdin.tail } := by
  simp [handler, h, readByte_snd]

/-- Characterization of `handler` on a state whose flag is already true. -/
theorem handler_caught (sig : Int) (s : ProcState) (h : s.caught = true) :
    handler sig s = { s with aborted := true, caught := true } := by
  simp [handler, h]

/- ## Claims -/

/-- C1: first-fault path.  If the flag is still false and stdin holds a single
newline byte, then `handler` invoked with SIGSEGV emits exactly one diagnostic
block to stderr (a block that contains the name "SIGSEGV" and the process id),
consumes the one byte from stdin, and returns without aborting. -/
theorem c1_first_fault_normal_path (s : ProcState)
    (hc : s.caught = false) (hin : s.stdin = [10]) :
    (handler SIGSEGV s).aborted = s.aborted ∧
    (handler SIGSEGV s).stderr = s.stderr ++ diagBlock "SIGSEGV" s.pid ∧
    (handler SIGSEGV s).stdin = [] ∧
    (∃ l ∈ diagBlock "SIGSEGV" s.pid, ∃ a b, l = a ++ "SIGSEGV" ++ b) ∧
    (∃ l ∈ diagBlock "SIGSEGV" s.pid, ∃ a b, l = a ++ toString s.pid ++ b) := by
  rw [handler_not_caught SIGSEGV s hc]
  refine ⟨rfl, by simp [sigName], by simp [hin], ?_, ?_⟩
  · exact ⟨"║  CAUGHT " ++ "SIGSEGV" ++ " - Process paused for debugger attachment",
      by simp [diagBlock], "║  CAUGHT ", " - Process paused for debugger attachment", rfl⟩
  · exact ⟨"║  PID: " ++ toString s.pid, by simp [diagBlock], "║  PID: ", "",
      by rw [String.append_empty]⟩

/-- Witness for C1 at the initial state with pid 1234 and a newline on stdin. -/
theorem c1_first_fault_normal_path_witness :
    (handler SIGSEGV (initState 1234 [10])).aborted = (initState 1234 [10]).aborted ∧
    (handler SIGSEGV (initState 1234 [10])).stderr =
      (initState 1234 [10]).stderr ++ diagBlock "SIGSEGV" (initState 1234 [10]).pid ∧
    (handler SIGSEGV (initState 1234 [10])).stdin = [] ∧
    (∃ l ∈ diagBlock "SIGSEGV" (initState 1234 [10]).pid, ∃ a b, l = a ++ "SIGSEGV" ++ b) ∧
    (∃ l ∈ diagBlock "SIGSEGV" (initState 1234 [10]).pid,
      ∃ a b, l = a ++ toString (initState 1234 [10]).pid ++ b) :=
  c1_first_fault_normal_path (initState 1234 [10]) rfl rfl

/-- C2: re-entrancy guard.  If the flag is already true when the handler is
entered, the process aborts immediately with no diagnostic printed and no
byte read from stdin. -/
theorem c2_reentrant_abort (sig : Int) (s : ProcState) (h : s.caught = true) :
    (handler sig s).aborted = true ∧
    (handler sig s).stderr = s.stderr ∧
    (handler sig s).stdin = s.stdin := by
  rw [handler_caught sig s h]
  exact ⟨rfl, rfl, rfl⟩

/-- Witness for C2 at a state whose flag is already set. -/
theorem c2_reentrant_abort_witness :
    (handler SIGSEGV caughtState).aborted = true ∧
    (handler SIGSEGV caughtState).stderr = caughtState.stderr ∧
    (handler SIGSEGV caughtState).stdin = caughtState.stdin :=
  c2_reentrant_abort SIGSEGV caughtState rfl

/-- C3: first-wins ordering.  Over any sequence of handler invocations from a
fresh state, only the first invocation takes the print-and-pause path — the
final stderr holds exactly the one block of the first signal — and any second
invocation aborts the process (so a diagnostic block is never emitted twice). -/
theorem c3_first_wins (sigs : List Int) (s : ProcState)
    (hc : s.caught = false) (ha : s.aborted = false) :
    (sigs = [] ∧ runHandlers sigs s = s) ∨
    (∃ sig rest, sigs = sig :: rest ∧
      (runHandlers sigs s).stderr = s.stderr ++ diagBlock (sigName sig) s.pid ∧
      (runHandlers sigs s).aborted = decide (rest ≠ [])) := by
  cases sigs with
  | nil => exact Or.inl ⟨rfl, rfl⟩
  | cons sig rest =>
    refine Or.inr ⟨sig, rest, rfl, ?_⟩
    have hrun : runHandlers (sig :: rest) s = runHandlers rest (handler sig s) := by
      simp [runHandlers, ha]
    rw [hrun, handler_not_caught sig s hc]
    cases rest with
    | nil => simp [runHandlers, ha]
    | cons sig2 rest2 =>
      have h2 : runHandlers (sig2 :: rest2)
          ({ s with caught := true
                  , stderr := s.stderr ++ diagBlock (sigName sig) s.pid
                  , stdin := s.stdin.tail }) =
          runHandlers rest2 (handler sig2
            { s with caught := true
                   , stderr := s.stderr ++ diagBlock (sigName sig) s.pid
                   , stdin := s.stdin.tail }) := by
        simp [runHandlers, ha]
      rw [h2, handler_caught _ _ rfl, runHandlers_of_aborted _ _ rfl]
      simp

/-- Witness for C3: two SIGBUS signals in a row from a fresh state. -/
theorem c3_first_wins_witness :
    ([SIGBUS, SIGBUS] = ([] : List Int) ∧
      runHandlers [SIGBUS, SIGBUS] (initState 42 []) = initState 42 []) ∨
    (∃ sig rest, [SIGBUS, SIGBUS] = sig :: rest ∧
      (runHandlers [SIGBUS, SIGBUS] (initState 42 [])).stderr =
        (initState 42 []).stderr ++ diagBlock (sigName sig) (initState 42 []).pid ∧
      (runHandlers [SIGBUS, SIGBUS] (initState 42 [])).aborted = decide (rest ≠ [])) :=
  c3_first_wins [SIGBUS, SIGBUS] (initState 42 []) rfl rfl

/-- C4: the flag lifecycle.  `CAUGHT` is false in the initial state, every
handler invocation leaves it true (the test-and-set writes true in both
branches), and it is never reset: once true it stays true across any sequence
of further invocations. -/
theorem c4_flag_monotone :
    (∀ pid stdin, (initState pid stdin).caught = false) ∧
    (∀ sig s, (handler sig s).caught = true) ∧
    (∀ sigs s, s.caught = true → (runHandlers sigs s).caught = true) := by
  refine ⟨fun _ _ => rfl, ?_, ?_⟩
  · intro sig s
    by_cases h : s.caught = true
    · rw [handler_caught sig s h]
    · rw [handler_not_caught sig s (by simpa using h)]
  · intro sigs
    induction sigs with
    | nil => intro s h; exact h
    | cons sig rest ih =>
      intro s h
      by_cases ha : s.aborted = true
      · rw [runHandlers_of_aborted _ _ ha] at *
        cases rest <;> simp [runHandlers, ha, h]
      · have ha' : s.aborted = false := by simpa using ha
        have : runHandlers (sig :: rest) s = runHandlers rest (handler sig s) := by
          simp [runHandlers, ha']
        rw [this]
        exact ih (handler sig s) (by rw [handler_caught sig s h])

/-- Witness for C4: the flag starts false, is set by a first invocation, and
survives a further invocation. -/
theorem c4_flag_monotone_witness :
    (initState 7 []).caught = false ∧
    (handler SIGSEGV (initState 7 [])).caught = true ∧
    (runHandlers [SIGBUS] (handler SIGSEGV (initState 7 []))).caught = true :=
  ⟨c4_flag_monotone.1 7 [],
   c4_flag_monotone.2.1 SIGSEGV (initState 7 []),
   c4_flag_monotone.2.2 [SIGBUS] (handler SIGSEGV (initState 7 []))
     (c4_flag_monotone.2.1 SIGSEGV (initState 7 []))⟩

/-- C5: signal-name resolution.  The four recognized signal values resolve to
their names, every other value resolves to "UNKNOWN", and on a fresh flag the
handler then follows the same non-abort path for any signal value: it prints
the block for the resolved name, consumes one byte, and returns. -/
theorem c5_sig_name_resolution :
    sigName SIGSEGV = "SIGSEGV" ∧ sigName SIGBUS = "SIGBUS" ∧
    sigName SIGFPE = "SIGFPE" ∧ sigName SIGILL = "SIGILL" ∧
    (∀ sig : Int, sig ≠ SIGSEGV → sig ≠ SIGBUS → sig ≠ SIGFPE → sig ≠ SIGILL →
      sigName sig = "UNKNOWN") ∧
    (∀ sig s, s.caught = false →
      (handler sig s).aborted = s.aborted ∧
      (handler sig s).stderr = s.stderr ++ diagBlock (sigName sig) s.pid ∧
      (handler sig s).stdin = s.stdin.tail) := by
  refine ⟨by simp [sigName, SIGSEGV, SIGBUS, SIGFPE, SIGILL],
    by simp [sigName, SIGSEGV, SIGBUS, SIGFPE, SIGILL],
    by simp [sigName, SIGSEGV, SIGBUS, SIGFPE, SIGILL],
    by simp [sigName, SIGSEGV, SIGBUS, SIGFPE, SIGILL], ?_, ?_⟩
  · intro sig h1 h2 h3 h4
    simp [sigName, h1, h2, h3, h4]
  · intro sig s hc
    rw [handler_not_caught sig s hc]
    exact ⟨rfl, rfl, rfl⟩

/-- Witness for C5: signal value 999 is outside the four recognized kinds and
takes the normal path on a fresh state. -/
theorem c5_sig_name_resolution_witness :
    sigName 999 = "UNKNOWN" ∧
    (handler 999 (initState 5 [10])).aborted = (initState 5 [10]).aborted ∧
    (handler 999 (initState 5 [10])).stderr =
      (initState 5 [10]).stderr ++ diagBlock (sigName 999) (initState 5 [10]).pid ∧
    (handler 999 (initState 5 [10])).stdin = (initState 5 [10]).stdin.tail :=
  ⟨c5_sig_name_resolution.2.2.2.2.1 999 (by decide) (by decide) (by decide) (by decide),
   c5_sig_name_resolution.2.2.2.2.2 999 (initState 5 [10]) rfl⟩

/-- C6: the non-unix `install()` registers no handler, raises no error (it is
a total function that returns), and emits exactly one guidance line. -/
theorem c6_nonunix_install :
    NonUnix.install.1 = [] ∧
    NonUnix.install.2.length = 1 ∧
    NonUnix.install.2 =
      ["[sigsegv_handler] Not available on this platform, use cdb/WinDbg instead"] :=
  ⟨rfl, rfl, rfl⟩

/-- C7: the unix `install()` registers the handler for exactly the four fatal
signals SIGSEGV, SIGBUS, SIGFPE, SIGILL, and its outcome does not depend on
the values the registration calls return: registration failure is silent. -/
theorem c7_unix_install (f g : Int → Int) (pid : Nat) :
    Unix.install f pid = Unix.install g pid ∧
    (Unix.install f pid).1 = [SIGSEGV, SIGBUS, SIGFPE, SIGILL] :=
  ⟨rfl, rfl⟩

/-- C8: both outcomes of the one-byte read return control: on an empty stream
(read failure) and a non-empty stream alike the handler finishes with the
tail of the stream, consuming at most one byte with no retry, and every other
component of the resulting state is independent of what the read produced. -/
theorem c8_read_total (sig : Int) (s : ProcState) (h : s.caught = false) :
    (handler sig s).stdin = (readByte s.stdin).2 ∧
    (readByte s.stdin).2 = s.stdin.tail ∧
    (∀ stdin2 : List Nat,
      (handler sig { s with stdin := stdin2 }).stderr = (handler sig s).stderr ∧
      (handler sig { s with stdin := stdin2 }).aborted = (handler sig s).aborted ∧
      (handler sig { s with stdin := stdin2 }).caught = (handler sig s).caught) := by
  refine ⟨?_, readByte_snd s.stdin, ?_⟩
  · rw [handler_not_caught sig s h, readByte_snd]
  · intro stdin2
    rw [handler_not_caught sig s h,
      handler_not_caught sig { s with stdin := stdin2 } (by simpa using h)]
    exact ⟨rfl, rfl, rfl⟩

/-- Witness for C8 at a fresh state with an empty stdin (the read fails). -/
theorem c8_read_total_witness :
    (handler SIGFPE (initState 3 [])).stdin = (readByte (initState 3 []).stdin).2 ∧
    (readByte (initState 3 []).stdin).2 = (initState 3 []).stdin.tail ∧
    (∀ stdin2 : List Nat,
      (handler SIGFPE { initState 3 [] with stdin := stdin2 }).stderr =
        (handler SIGFPE (initState 3 [])).stderr ∧
      (handler SIGFPE { initState 3 [] with stdin := stdin2 }).aborted =
        (handler SIGFPE (initState 3 [])).aborted ∧
      (handler SIGFPE { initState 3 [] with stdin := stdin2 }).caught =
        (handler SIGFPE (initState 3 [])).caught) :=
  c8_read_total SIGFPE (initState 3 []) rfl

/-- C9: frame condition.  A handler invocation is fully characterized by the
flag, the signal value, the process id, and the streams: the process id is
read but never changed, the flag is the only persistent state written, and
what is printed or consumed depends on nothing but the flag, the signal and
the pid — no other state is carried between invocations. -/
theorem c9_frame (sig : Int) (s : ProcState) :
    (handler sig s).pid = s.pid ∧
    (handler sig s).caught = true ∧
    (handler sig s).stderr =
      s.stderr ++ (if s.caught then [] else diagBlock (sigName sig) s.pid) ∧
    (handler sig s).stdin = (if s.caught then s.stdin else s.stdin.tail) ∧
    (handler sig s).aborted = (s.aborted || s.caught) := by
  by_cases h : s.caught = true
  · rw [handler_caught sig s h, h]
    simp
  · have h' : s.caught = false := by simpa using h
    rw [handler_not_caught sig s h', h']
    simp

/-- C10: on unix, every call to `install()` also emits exactly one line to the
error stream, and that line contains the current process id. -/
theorem c10_unix_install_pid_line (f : Int → Int) (pid : Nat) :
    (Unix.install f pid).2.length = 1 ∧
    (∃ a b, (Unix.install f pid).2 = [a ++ toString pid ++ b]) :=
  ⟨rfl, "[sigsegv_handler] Installed crash handlers for PID ", "",
    by rw [String.append_empty]; rfl⟩

end SigsegvHandler
